import Mathlib

/-!
Verification development for the classroom Assignment Assessment Pipeline.

The repository ships the React frontend (TypeScript) together with build and
deployment scripts; the Python backend implementing the pipeline itself
(pipeline orchestrator, embedding store, similarity screener, authenticity
analyzer) is not part of the checked-in sources, only its frontend callers
and type declarations are.  Consequently:

* the frontend API client (`assignmentService.getMySubmission`) is embedded
  directly from its TypeScript source;
* the pipeline components are modelled from the specification, each such
  definition carrying a doc comment starting with `Modelled from the spec:`.

Machine floats of the original code are represented by exact rationals.
-/

namespace IDEA

/-! ## Frontend API client (from `assignmentService` in the TypeScript source) -/

/-- A student's submission as the frontend receives it; only the fields the
client logic inspects are retained. -/
structure Submission where
  id : Nat
  content : String
deriving Repr, DecidableEq

/-- The error thrown by the HTTP layer.  `status?` is `error.response?.status`:
`none` when the request failed without a server response. -/
structure HttpError where
  status? : Option Nat
deriving Repr, DecidableEq

/-- Outcome of one HTTP GET as observed by the client: either a parsed body or
a thrown error. -/
inductive ApiOutcome where
  | success (s : Submission)
  | failure (e : HttpError)
deriving Repr, DecidableEq

/-- Embeds `assignmentService.getMySubmission`: the try/catch around
`api.get` returns the body on success, `null` when the caught error has
`response?.status === 404`, and rethrows any other error. -/
def getMySubmission : ApiOutcome → Except HttpError (Option Submission)
  | .success s => .ok (some s)
  | .failure e => if e.status? = some 404 then .ok none else .error e

/-! ## Embedding Store -/

/-- Modelled from the spec: `SubmissionDocument` produced by the Content
Extractor of the absent backend (`id` is the content hash). -/
structure SubmissionDocument where
  id : String
  raw_text : String
  created_at : Nat
deriving Repr, DecidableEq

/-- Modelled from the spec: `EmbeddingRecord` owned by the Embedding Store;
vectors are exact rationals in place of machine floats. -/
structure EmbeddingRecord where
  document_id : String
  vector : List ℚ
  stored_at : Nat
deriving Repr, DecidableEq

/-- Modelled from the spec: the Embedding Store's state, the collection of
inserted records. -/
structure EmbeddingStore where
  records : List EmbeddingRecord
deriving Repr, DecidableEq

/-- Modelled from the spec: insertion keyed by `document_id`; re-inserting an
id overwrites (drops every record carrying that id) rather than duplicates. -/
def insertRecord (s : EmbeddingStore) (r : EmbeddingRecord) : EmbeddingStore :=
  ⟨r :: s.records.filter (fun x => x.document_id != r.document_id)⟩

/-- Modelled from the spec: `embed_and_store(document)` of the absent
Embedding Store.  `embedf` is the external Embedding Provider, `now` the
insertion timestamp; returns the new store state and the stored record. -/
def embed_and_store (embedf : String → List ℚ) (s : EmbeddingStore)
    (doc : SubmissionDocument) (now : Nat) : EmbeddingStore × EmbeddingRecord :=
  let r : EmbeddingRecord := ⟨doc.id, embedf doc.raw_text, now⟩
  (insertRecord s r, r)

/-- A record scored against a query vector, before ranking. -/
structure ScoredRec where
  docId : String
  sim : ℚ
  storedAt : Nat
deriving Repr, DecidableEq

/-- Ranking order of `query_nearest`: strictly greater similarity first, equal
similarities broken by earliest `stored_at`. -/
def simOrder (a b : ScoredRec) : Prop :=
  b.sim < a.sim ∨ (b.sim = a.sim ∧ a.storedAt ≤ b.storedAt)

instance : DecidableRel simOrder := fun a b => by
  unfold simOrder; infer_instance

instance : IsTotal ScoredRec simOrder := by
  constructor
  intro a b
  rcases lt_trichotomy a.sim b.sim with h | h | h
  · exact Or.inr (Or.inl h)
  · rcases Nat.le_total a.storedAt b.storedAt with hs | hs
    · exact Or.inl (Or.inr ⟨h.symm, hs⟩)
    · exact Or.inr (Or.inr ⟨h, hs⟩)
  · exact Or.inl (Or.inl h)

instance : IsTrans ScoredRec simOrder := by
  constructor
  intro a b c hab hbc
  rcases hab with h1 | ⟨h1, h1s⟩ <;> rcases hbc with h2 | ⟨h2, h2s⟩
  · exact Or.inl (h2.trans h1)
  · exact Or.inl (h2 ▸ h1)
  · exact Or.inl (h1 ▸ h2)
  · exact Or.inr ⟨h2.trans h1, le_trans h1s h2s⟩

/-- Modelled from the spec: every stored record scored by the similarity
kernel `simf` against the query vector `v`. -/
def scoredRecords (simf : List ℚ → List ℚ → ℚ) (recs : List EmbeddingRecord)
    (v : List ℚ) : List ScoredRec :=
  recs.map (fun r => ⟨r.document_id, simf v r.vector, r.stored_at⟩)

/-- Modelled from the spec: the ranked score list backing `query_nearest`
(sorted by `simOrder`, truncated to `k`).  The kernel `simf` is kept abstract
because exact cosine over floating-point embeddings is not representable in
ℚ; every theorem below holds for an arbitrary kernel, hence for cosine. -/
def sortedScored (simf : List ℚ → List ℚ → ℚ) (s : EmbeddingStore)
    (v : List ℚ) (k : Nat) : List ScoredRec :=
  (List.insertionSort simOrder (scoredRecords simf s.records v)).take k

/-- Modelled from the spec: `query_nearest(vector, k)` of the absent Embedding
Store — an ordered sequence of `(document_id, similarity)` pairs of length at
most `k`, sorted descending by similarity with ties broken by earliest
`stored_at`. -/
def query_nearest (simf : List ℚ → List ℚ → ℚ) (s : EmbeddingStore)
    (v : List ℚ) (k : Nat) : List (String × ℚ) :=
  (sortedScored simf s v k).map (fun x => (x.docId, x.sim))

/-! ## Authenticity Analyzer -/

/-- Counts maximal runs of non-space characters; the Boolean argument records
whether the scan is currently inside a word. -/
def tokenCountAux : List Char → Bool → Nat
  | [], _ => 0
  | c :: rest, inWord =>
    if c = ' ' then tokenCountAux rest false
    else (if inWord then 0 else 1) + tokenCountAux rest true

/-- Number of whitespace-separated tokens of a text. -/
def tokenCount (text : String) : Nat :=
  tokenCountAux text.toList false

/-- Modelled from the spec: the Authenticity Analyzer's configuration — the
minimum token threshold below which results are low-confidence, and the two
classification thresholds. -/
structure AuthConfig where
  minTokens : Nat
  perplexityThreshold : ℚ
  burstinessThreshold : ℚ
deriving Repr, DecidableEq

/-- Modelled from the spec: the analyzer's result.  `low_confidence` is the
`LowConfidenceError` flag; `verdict` is the hard AI-authorship verdict, absent
(`none`) when the input is below the minimum token threshold. -/
structure AuthResult where
  perplexity_score : ℚ
  burstiness_score : ℚ
  low_confidence : Bool
  verdict : Option Bool
deriving Repr, DecidableEq

/-- Modelled from the spec: the two-threshold AND rule — a document counts as
AI-generated only when the perplexity score and the burstiness score both
cross their configured thresholds (crossing is modelled as falling to or below
the threshold: generated text scores lower on both heuristics). -/
def crossesThresholds (cfg : AuthConfig) (p b : ℚ) : Bool :=
  decide (p ≤ cfg.perplexityThreshold) && decide (b ≤ cfg.burstinessThreshold)

/-- Modelled from the spec: `analyze(text)` of the absent Authenticity
Analyzer.  `perpf` and `burstf` are the black-box per-window scoring models.
The function is total: short inputs yield a flagged low-confidence result with
no hard verdict instead of raising. -/
def analyze (cfg : AuthConfig) (perpf burstf : String → ℚ) (text : String) :
    AuthResult :=
  let p := perpf text
  let b := burstf text
  if tokenCount text < cfg.minTokens then
    ⟨p, b, true, none⟩
  else
    ⟨p, b, false, some (crossesThresholds cfg p b)⟩

/-! ## Similarity Screener -/

/-- Modelled from the spec: `PlagiarismReport`.  `similarity_score` is `none`
exactly when the embedding step degraded (never a stand-in zero), mirrored by
the explicit `degraded` flag. -/
structure PlagiarismReport where
  similarity_score : Option ℚ
  degraded : Bool
  nearest_matches : List (String × ℚ)
  ai_generated : Bool
  perplexity_score : ℚ
  burstiness_score : ℚ
  low_confidence : Bool
deriving Repr, DecidableEq

/-- Modelled from the spec: default neighbour count of the screener. -/
def kDefault : Nat := 5

/-- Modelled from the spec: a similarity scaled to the range `[0,100]` (the
raw cosine value multiplied by 100 and clamped into the range). -/
def scaleSim (q : ℚ) : ℚ := max 0 (min 100 (100 * q))

/-- Maximum similarity appearing among a list of neighbour matches. -/
def maxSim : List (String × ℚ) → ℚ
  | [] => 0
  | m :: rest => (rest.map Prod.snd).foldr max m.2

/-- Modelled from the spec: `screen(document)` of the absent Similarity
Screener.  `embedf` is the embedding step (`none` models its failure), `simf`
the similarity kernel, `perpf`/`burstf` the authenticity scoring models.  The
function is total: every call returns a `PlagiarismReport`, and an embedding
failure yields `similarity_score = none` with `degraded = true`. -/
def screen (cfg : AuthConfig) (simf : List ℚ → List ℚ → ℚ)
    (embedf : String → Option (List ℚ)) (perpf burstf : String → ℚ)
    (store : EmbeddingStore) (doc : SubmissionDocument) : PlagiarismReport :=
  let ar := analyze cfg perpf burstf doc.raw_text
  let ai := crossesThresholds cfg ar.perplexity_score ar.burstiness_score
  match embedf doc.raw_text with
  | none =>
    ⟨none, true, [], ai, ar.perplexity_score, ar.burstiness_score,
      ar.low_confidence⟩
  | some v =>
    let others : EmbeddingStore :=
      ⟨store.records.filter (fun r => r.document_id != doc.id)⟩
    let ms := query_nearest simf others v kDefault
    let score := if ms.isEmpty then 0 else scaleSim (maxSim ms)
    ⟨some score, false, ms, ai, ar.perplexity_score, ar.burstiness_score,
      ar.low_confidence⟩

/-! ## Pipeline Orchestrator -/

/-- Modelled from the spec: the stages a run can fail in. -/
inductive Stage where
  | research
  | analysis
  | grading
deriving Repr, DecidableEq

/-- Modelled from the spec: terminal pipeline status — `completed` or
`failed stage`. -/
inductive PipelineStatus where
  | completed
  | failed (s : Stage)
deriving Repr, DecidableEq

/-- Modelled from the spec: one reply of the external Reasoning Oracle — a
validated payload, a malformed (schema-violating) response, or a timeout. -/
inductive OracleReply (A : Type) where
  | valid (a : A)
  | malformed
  | timeout
deriving Repr, DecidableEq

/-- Whether an Oracle reply validated against the expected shape. -/
def OracleReply.isValid {A : Type} : OracleReply A → Bool
  | .valid _ => true
  | .malformed => false
  | .timeout => false

/-- Modelled from the spec: a stage's Oracle call under the retry policy.  The
script lists the Oracle's successive replies; the stage issues the first call
and, when it is malformed or timed out, exactly one retry — a second bad reply
fails the stage regardless of any later script entries. -/
def callWithRetry {A : Type} : List (OracleReply A) → Option A
  | .valid a :: _ => some a
  | _ :: .valid a :: _ => some a
  | _ => none

/-- Number of Oracle calls a stage issues on a given script: one when the
first reply validates, two (the single retry) otherwise. -/
def attemptsUsed {A : Type} : List (OracleReply A) → Nat
  | .valid _ :: _ => 1
  | _ => 2

/-- Modelled from the spec: exponential backoff with base 2 seconds — the
delay in seconds before retry attempt `n`. -/
def retryBackoffSeconds (n : Nat) : Nat := 2 ^ n

/-- Modelled from the spec: `ResearchContext`, ephemeral to one run. -/
structure ResearchContext where
  query : String
  snippets : List (String × String)
deriving Repr, DecidableEq

/-- The empty research context the Orchestrator substitutes when the Research
Stage fails. -/
def emptyContext (q : String) : ResearchContext := ⟨q, []⟩

/-- Modelled from the spec: `AnalysisReport` produced by the Analysis Stage. -/
structure AnalysisReport where
  findings : List (String × String)
  strengths : List String
  weaknesses : List String
  confidence : ℚ
deriving Repr, DecidableEq

/-- Modelled from the spec: the Grading Stage's validated payload — a grade
with improvement feedback. -/
structure GradeFeedback where
  grade : String
  feedback_text : String
deriving Repr, DecidableEq

/-- Modelled from the spec: the external behaviour one run is exposed to —
the Research Stage's outcome (`none` models a Web Research Provider exception
or timeout), the Oracle's reply scripts for the Analysis and Grading stages,
and the concurrently-run screener's result if it finished in time. -/
structure RunInput where
  prompt : String
  researchOutcome : Option ResearchContext
  analysisScript : List (OracleReply AnalysisReport)
  gradingScript : List (OracleReply GradeFeedback)
  screenerResult : Option PlagiarismReport

/-- Modelled from the spec: `AssessmentResult`, the terminal aggregate of one
run, carrying the partial results accumulated up to the terminal state. -/
structure AssessmentResult where
  status : PipelineStatus
  research_degraded : Bool
  context : ResearchContext
  analysis : Option AnalysisReport
  grade : Option GradeFeedback
  plagiarism : Option PlagiarismReport

/-- Modelled from the spec: the Orchestrator's run over the state machine
`Extracted → Researching → Analyzing → Grading → Completed`.  Research failure
degrades to an empty context and never fails the run; Analysis and Grading
each call the Oracle under the single-retry policy and fail their own stage on
exhaustion; every run returns an `AssessmentResult` (the function is total —
no unhandled exception). -/
def runPipeline (inp : RunInput) : AssessmentResult :=
  let step : ResearchContext × Bool :=
    match inp.researchOutcome with
    | some c => (c, false)
    | none => (emptyContext inp.prompt, true)
  match callWithRetry inp.analysisScript with
  | none =>
    ⟨.failed .analysis, step.2, step.1, none, none, inp.screenerResult⟩
  | some rep =>
    match callWithRetry inp.gradingScript with
    | none =>
      ⟨.failed .grading, step.2, step.1, some rep, none, inp.screenerResult⟩
    | some g =>
      ⟨.completed, step.2, step.1, some rep, some g, inp.screenerResult⟩

/-! ## Theorems -/

/-- C10: `assignmentService.getMySubmission(assignmentId)` returns `null`
exactly when the server responds with HTTP status 404, and rethrows every
other error unchanged; it never maps a non-404 failure to `null`. -/
theorem C10_getMySubmission_null_iff_404 (o : ApiOutcome) :
    (getMySubmission o = .ok none ↔ o = .failure ⟨some 404⟩) ∧
    (∀ e : HttpError, o = .failure e → e.status? ≠ some 404 →
      getMySubmission o = .error e) := by
  constructor
  · constructor
    · intro h
      cases o with
      | success s => simp [getMySubmission] at h
      | failure e =>
        by_cases h4 : e.status? = some 404
        · cases e
          simp_all
        · simp [getMySubmission, h4] at h
    · rintro rfl
      simp [getMySubmission]
  · rintro e rfl hne
    simp [getMySubmission, hne]

/-- Witness for C10 at concrete inputs: a 500 failure is rethrown unchanged
and a 404 failure maps to `null`. -/
theorem C10_getMySubmission_null_iff_404_witness :
    getMySubmission (.failure ⟨some 500⟩) = .error ⟨some 500⟩ ∧
    getMySubmission (.failure ⟨some 404⟩) = .ok none := by
  constructor
  · exact (C10_getMySubmission_null_iff_404 (.failure ⟨some 500⟩)).2
      ⟨some 500⟩ rfl (by decide)
  · exact (C10_getMySubmission_null_iff_404 (.failure ⟨some 404⟩)).1.mpr rfl

/-- After any single insertion, the store holds exactly the inserted record
under the inserted id. -/
lemma filter_insertRecord (s : EmbeddingStore) (r : EmbeddingRecord) :
    (insertRecord s r).records.filter
      (fun x => x.document_id == r.document_id) = [r] := by
  simp [insertRecord, List.filter_filter, bne]

/-- C6: `embed_and_store` is idempotent on document identity — inserting the
same document twice leaves exactly one `EmbeddingRecord` for its id. -/
theorem C6_embed_and_store_idempotent (embedf : String → List ℚ)
    (s : EmbeddingStore) (doc : SubmissionDocument) (t1 t2 : Nat) :
    ((embed_and_store embedf (embed_and_store embedf s doc t1).1 doc
        t2).1.records.filter (fun x => x.document_id == doc.id)).length = 1 := by
  have h := filter_insertRecord (embed_and_store embedf s doc t1).1
    ⟨doc.id, embedf doc.raw_text, t2⟩
  simp only [embed_and_store] at h ⊢
  simp [h]

/-- C7: `query_nearest` returns at most `k` pairs, the underlying ranked list
is sorted by `simOrder` (descending similarity, ties broken by earliest
`stored_at`), the output is exactly its projection to `(document_id, score)`
pairs — hence sorted descending by similarity — and, being a pure function of
the store and the query, repeated calls return the identical sequence. -/
theorem C7_query_nearest_ordered_bounded_deterministic
    (simf : List ℚ → List ℚ → ℚ) (s : EmbeddingStore) (v : List ℚ) (k : Nat) :
    (query_nearest simf s v k).length ≤ k ∧
    List.Sorted simOrder (sortedScored simf s v k) ∧
    query_nearest simf s v k =
      (sortedScored simf s v k).map (fun x => (x.docId, x.sim)) ∧
    List.Sorted (fun p q : String × ℚ => q.2 ≤ p.2) (query_nearest simf s v k) ∧
    query_nearest simf s v k = query_nearest simf s v k := by
  have hsorted : List.Sorted simOrder (sortedScored simf s v k) :=
    List.Pairwise.sublist (List.take_sublist k _)
      (List.sorted_insertionSort simOrder (scoredRecords simf s.records v))
  refine ⟨?_, hsorted, rfl, ?_, rfl⟩
  · simp [query_nearest, sortedScored]
  · have : List.Pairwise
        (fun a b : ScoredRec => b.sim ≤ a.sim) (sortedScored simf s v k) := by
      refine hsorted.imp ?_
      intro a b hab
      rcases hab with h | ⟨h, _⟩
      · exact le_of_lt h
      · exact le_of_eq h
    exact List.pairwise_map.mpr this

/-- The analyzer always reports the perplexity model's score unchanged. -/
lemma analyze_perplexity (cfg : AuthConfig) (perpf burstf : String → ℚ)
    (text : String) :
    (analyze cfg perpf burstf text).perplexity_score = perpf text := by
  unfold analyze
  split <;> rfl

/-- The analyzer always reports the burstiness model's score unchanged. -/
lemma analyze_burstiness (cfg : AuthConfig) (perpf burstf : String → ℚ)
    (text : String) :
    (analyze cfg perpf burstf text).burstiness_score = burstf text := by
  unfold analyze
  split <;> rfl

/-- The screener's AI verdict is the two-threshold AND rule applied to the
two authenticity scores, whatever the embedding step does. -/
lemma screen_ai_generated (cfg : AuthConfig) (simf : List ℚ → List ℚ → ℚ)
    (embedf : String → Option (List ℚ)) (perpf burstf : String → ℚ)
    (store : EmbeddingStore) (doc : SubmissionDocument) :
    (screen cfg simf embedf perpf burstf store doc).ai_generated =
      crossesThresholds cfg (perpf doc.raw_text) (burstf doc.raw_text) := by
  unfold screen
  rcases h : embedf doc.raw_text with _ | v <;>
    simp [h, analyze_perplexity, analyze_burstiness]

/-- C9: on input below the minimum token threshold the analyzer does not
raise (it is a total function) and emits no hard authenticity verdict; the
result carries the low-confidence flag. -/
theorem C9_analyze_short_text_flagged_low_confidence (cfg : AuthConfig)
    (perpf burstf : String → ℚ) (text : String)
    (h : tokenCount text < cfg.minTokens) :
    (analyze cfg perpf burstf text).low_confidence = true ∧
    (analyze cfg perpf burstf text).verdict = none := by
  simp [analyze, h]

/-- Witness for C9 on the empty text against a threshold of five tokens. -/
theorem C9_analyze_short_text_flagged_low_confidence_witness :
    tokenCount "" < 5 ∧
    (analyze ⟨5, 0, 0⟩ (fun _ => 0) (fun _ => 0) "").low_confidence = true ∧
    (analyze ⟨5, 0, 0⟩ (fun _ => 0) (fun _ => 0) "").verdict = none := by
  have h : tokenCount "" < 5 := by decide
  exact ⟨h, C9_analyze_short_text_flagged_low_confidence ⟨5, 0, 0⟩
    (fun _ => 0) (fun _ => 0) "" h⟩

/-- C8: the screened report classifies a document as AI-generated exactly
when both the perplexity score and the burstiness score cross their
configured thresholds; each of the two signals alone is insufficient, shown
by explicit screenings where exactly one signal crosses and the verdict is
negative. -/
theorem C8_ai_generated_iff_both_signals (cfg : AuthConfig)
    (simf : List ℚ → List ℚ → ℚ) (embedf : String → Option (List ℚ))
    (perpf burstf : String → ℚ) (store : EmbeddingStore)
    (doc : SubmissionDocument) :
    ((screen cfg simf embedf perpf burstf store doc).ai_generated = true ↔
      (perpf doc.raw_text ≤ cfg.perplexityThreshold ∧
        burstf doc.raw_text ≤ cfg.burstinessThreshold)) ∧
    (∃ (cfg2 : AuthConfig) (simf2 : List ℚ → List ℚ → ℚ)
        (embedf2 : String → Option (List ℚ)) (perpf2 burstf2 : String → ℚ)
        (store2 : EmbeddingStore) (doc2 : SubmissionDocument),
      perpf2 doc2.raw_text ≤ cfg2.perplexityThreshold ∧
      ¬ burstf2 doc2.raw_text ≤ cfg2.burstinessThreshold ∧
      (screen cfg2 simf2 embedf2 perpf2 burstf2 store2 doc2).ai_generated
        = false) ∧
    (∃ (cfg3 : AuthConfig) (simf3 : List ℚ → List ℚ → ℚ)
        (embedf3 : String → Option (List ℚ)) (perpf3 burstf3 : String → ℚ)
        (store3 : EmbeddingStore) (doc3 : SubmissionDocument),
      ¬ perpf3 doc3.raw_text ≤ cfg3.perplexityThreshold ∧
      burstf3 doc3.raw_text ≤ cfg3.burstinessThreshold ∧
      (screen cfg3 simf3 embedf3 perpf3 burstf3 store3 doc3).ai_generated
        = false) := by
  refine ⟨?_, ?_, ?_⟩
  · rw [screen_ai_generated]
    simp [crossesThresholds]
  · refine ⟨⟨0, 0, 0⟩, fun _ _ => 0, fun _ => none, fun _ => 0, fun _ => 1,
      ⟨[]⟩, ⟨"d", "", 0⟩, by norm_num, by norm_num, ?_⟩
    rw [screen_ai_generated]
    simp [crossesThresholds]
  · refine ⟨⟨0, 0, 0⟩, fun _ _ => 0, fun _ => none, fun _ => 1, fun _ => 0,
      ⟨[]⟩, ⟨"d", "", 0⟩, by norm_num, by norm_num, ?_⟩
    rw [screen_ai_generated]
    simp [crossesThresholds]

/-- C1: `screen` is a total function (every call returns a report, never an
exception), and on embedding failure the report carries `similarity_score =
none` with the explicit `degraded` flag — in particular the score is not a
stand-in `0`. -/
theorem C1_screen_degrades_explicitly_on_embedding_failure (cfg : AuthConfig)
    (simf : List ℚ → List ℚ → ℚ) (embedf : String → Option (List ℚ))
    (perpf burstf : String → ℚ) (store : EmbeddingStore)
    (doc : SubmissionDocument) (h : embedf doc.raw_text = none) :
    (screen cfg simf embedf perpf burstf store doc).similarity_score = none ∧
    (screen cfg simf embedf perpf burstf store doc).degraded = true ∧
    (screen cfg simf embedf perpf burstf store doc).similarity_score
      ≠ some 0 := by
  simp [screen, h]

/-- Witness for C1 with an embedding step that always fails. -/
theorem C1_screen_degrades_explicitly_on_embedding_failure_witness :
    (screen ⟨5, 0, 0⟩ (fun _ _ => 0) (fun _ => none) (fun _ => 0) (fun _ => 0)
      ⟨[]⟩ ⟨"d", "", 0⟩).similarity_score = none ∧
    (screen ⟨5, 0, 0⟩ (fun _ _ => 0) (fun _ => none) (fun _ => 0) (fun _ => 0)
      ⟨[]⟩ ⟨"d", "", 0⟩).degraded = true ∧
    (screen ⟨5, 0, 0⟩ (fun _ _ => 0) (fun _ => none) (fun _ => 0) (fun _ => 0)
      ⟨[]⟩ ⟨"d", "", 0⟩).similarity_score ≠ some 0 :=
  C1_screen_degrades_explicitly_on_embedding_failure ⟨5, 0, 0⟩ (fun _ _ => 0)
    (fun _ => none) (fun _ => 0) (fun _ => 0) ⟨[]⟩ ⟨"d", "", 0⟩ rfl

/-- The clamped scaling always lands in the range `[0,100]`. -/
lemma scaleSim_bounds (q : ℚ) : 0 ≤ scaleSim q ∧ scaleSim q ≤ 100 := by
  unfold scaleSim
  exact ⟨le_max_left 0 _, max_le (by norm_num) (min_le_left _ _)⟩

/-- The report produced by `screen` when the embedding step succeeds, written
out field by field. -/
lemma screen_embed_some (cfg : AuthConfig) (simf : List ℚ → List ℚ → ℚ)
    (embedf : String → Option (List ℚ)) (perpf burstf : String → ℚ)
    (store : EmbeddingStore) (doc : SubmissionDocument) (v : List ℚ)
    (h : embedf doc.raw_text = some v) :
    screen cfg simf embedf perpf burstf store doc =
      ⟨some (if (query_nearest simf
            ⟨store.records.filter (fun r => r.document_id != doc.id)⟩
            v kDefault).isEmpty
          then 0
          else scaleSim (maxSim (query_nearest simf
            ⟨store.records.filter (fun r => r.document_id != doc.id)⟩
            v kDefault))),
        false,
        query_nearest simf
          ⟨store.records.filter (fun r => r.document_id != doc.id)⟩ v kDefault,
        crossesThresholds cfg (perpf doc.raw_text) (burstf doc.raw_text),
        perpf doc.raw_text, burstf doc.raw_text,
        (analyze cfg perpf burstf doc.raw_text).low_confidence⟩ := by
  unfold screen
  rw [h]
  simp [analyze_perplexity, analyze_burstiness]

/-- C2: when the embedding step succeeds, the report's similarity score is a
present value within `[0,100]`; it is exactly `0` on an empty neighbour set
and the maximum neighbour similarity scaled to `[0,100]` otherwise, the
neighbour set being the `k` nearest matches with the document's own id
excluded. -/
theorem C2_similarity_score_is_scaled_max_neighbor (cfg : AuthConfig)
    (simf : List ℚ → List ℚ → ℚ) (embedf : String → Option (List ℚ))
    (perpf burstf : String → ℚ) (store : EmbeddingStore)
    (doc : SubmissionDocument) (v : List ℚ)
    (h : embedf doc.raw_text = some v) :
    ∃ sc : ℚ,
      (screen cfg simf embedf perpf burstf store doc).similarity_score
        = some sc ∧
      0 ≤ sc ∧ sc ≤ 100 ∧
      (screen cfg simf embedf perpf burstf store doc).nearest_matches =
        query_nearest simf
          ⟨store.records.filter (fun r => r.document_id != doc.id)⟩
          v kDefault ∧
      ((screen cfg simf embedf perpf burstf store doc).nearest_matches = []
        → sc = 0) ∧
      ((screen cfg simf embedf perpf burstf store doc).nearest_matches ≠ []
        → sc = scaleSim (maxSim
            (screen cfg simf embedf perpf burstf store doc).nearest_matches))
      := by
  rw [screen_embed_some cfg simf embedf perpf burstf store doc v h]
  by_cases hms : (query_nearest simf
      ⟨store.records.filter (fun r => r.document_id != doc.id)⟩
      v kDefault).isEmpty
  · refine ⟨0, ?_, le_refl 0, by norm_num, rfl, fun _ => rfl, ?_⟩
    · simp [hms]
    · intro hne
      exact absurd (List.isEmpty_iff.mp hms) hne
  · refine ⟨scaleSim (maxSim (query_nearest simf
      ⟨store.records.filter (fun r => r.document_id != doc.id)⟩ v kDefault)),
      ?_, (scaleSim_bounds _).1, (scaleSim_bounds _).2, rfl,
      ?_, fun _ => rfl⟩
    · simp [hms]
    · intro hnil
      exact absurd (List.isEmpty_iff.mpr hnil) hms

/-- Witness for C2: a singleton store queried by a document embedding that
succeeds. -/
theorem C2_similarity_score_is_scaled_max_neighbor_witness :
    ∃ sc : ℚ,
      (screen ⟨5, 0, 0⟩ (fun _ _ => 1) (fun _ => some [1]) (fun _ => 0)
        (fun _ => 0) ⟨[⟨"other", [1], 0⟩]⟩
        ⟨"d", "", 0⟩).similarity_score = some sc ∧
      0 ≤ sc ∧ sc ≤ 100 ∧
      (screen ⟨5, 0, 0⟩ (fun _ _ => 1) (fun _ => some [1]) (fun _ => 0)
        (fun _ => 0) ⟨[⟨"other", [1], 0⟩]⟩ ⟨"d", "", 0⟩).nearest_matches =
        query_nearest (fun _ _ => 1)
          ⟨[⟨"other", [1], 0⟩].filter (fun r => r.document_id != "d")⟩
          [1] kDefault ∧
      ((screen ⟨5, 0, 0⟩ (fun _ _ => 1) (fun _ => some [1]) (fun _ => 0)
        (fun _ => 0) ⟨[⟨"other", [1], 0⟩]⟩ ⟨"d", "", 0⟩).nearest_matches = []
        → sc = 0) ∧
      ((screen ⟨5, 0, 0⟩ (fun _ _ => 1) (fun _ => some [1]) (fun _ => 0)
        (fun _ => 0) ⟨[⟨"other", [1], 0⟩]⟩ ⟨"d", "", 0⟩).nearest_matches ≠ []
        → sc = scaleSim (maxSim
            (screen ⟨5, 0, 0⟩ (fun _ _ => 1) (fun _ => some [1]) (fun _ => 0)
              (fun _ => 0) ⟨[⟨"other", [1], 0⟩]⟩
              ⟨"d", "", 0⟩).nearest_matches)) :=
  C2_similarity_score_is_scaled_max_neighbor ⟨5, 0, 0⟩ (fun _ _ => 1)
    (fun _ => some [1]) (fun _ => 0) (fun _ => 0) ⟨[⟨"other", [1], 0⟩]⟩
    ⟨"d", "", 0⟩ [1] rfl

/-- C3: a malformed or timed-out Oracle reply is retried exactly once with
base-2-seconds backoff: the retry rescues the stage when it validates, a
second bad reply fails the stage regardless of any later replies, and a run
whose Analysis Oracle reply is malformed once and valid on the retry (with
Grading succeeding) completes with `pipeline_status = Completed`. -/
theorem C3_oracle_retried_exactly_once (prompt : String)
    (ro : Option ResearchContext) (bad : OracleReply AnalysisReport)
    (rep : AnalysisReport) (rest : List (OracleReply AnalysisReport))
    (g : GradeFeedback) (grest : List (OracleReply GradeFeedback))
    (scr : Option PlagiarismReport) (hbad : bad.isValid = false) :
    callWithRetry (bad :: .valid rep :: rest) = some rep ∧
    attemptsUsed (bad :: .valid rep :: rest) = 2 ∧
    retryBackoffSeconds 1 = 2 ∧
    (∀ b2 : OracleReply AnalysisReport, b2.isValid = false →
      ∀ rest2 : List (OracleReply AnalysisReport),
        callWithRetry (bad :: b2 :: rest2) = none) ∧
    (runPipeline
      ⟨prompt, ro, bad :: .valid rep :: rest, .valid g :: grest, scr⟩).status
      = .completed := by
  cases bad with
  | valid a => simp [OracleReply.isValid] at hbad
  | malformed =>
    refine ⟨rfl, rfl, rfl, ?_, ?_⟩
    · intro b2 hb2 rest2
      cases b2 with
      | valid a => simp [OracleReply.isValid] at hb2
      | malformed => rfl
      | timeout => rfl
    · rcases ro with _ | c <;> simp [runPipeline, callWithRetry]
  | timeout =>
    refine ⟨rfl, rfl, rfl, ?_, ?_⟩
    · intro b2 hb2 rest2
      cases b2 with
      | valid a => simp [OracleReply.isValid] at hb2
      | malformed => rfl
      | timeout => rfl
    · rcases ro with _ | c <;> simp [runPipeline, callWithRetry]

/-- Witness for C3: a malformed first reply followed by a valid report, with
Grading succeeding immediately. -/
theorem C3_oracle_retried_exactly_once_witness :
    callWithRetry (.malformed :: .valid (⟨[], [], [], 0⟩ : AnalysisReport)
        :: []) = some (⟨[], [], [], 0⟩ : AnalysisReport) ∧
    attemptsUsed (.malformed :: .valid (⟨[], [], [], 0⟩ : AnalysisReport)
        :: []) = 2 ∧
    retryBackoffSeconds 1 = 2 ∧
    (∀ b2 : OracleReply AnalysisReport, b2.isValid = false →
      ∀ rest2 : List (OracleReply AnalysisReport),
        callWithRetry (.malformed :: b2 :: rest2) = none) ∧
    (runPipeline ⟨"", none, .malformed :: .valid ⟨[], [], [], 0⟩ :: [],
      .valid ⟨"A", "good"⟩ :: [], none⟩).status = .completed :=
  C3_oracle_retried_exactly_once "" none .malformed ⟨[], [], [], 0⟩ []
    ⟨"A", "good"⟩ [] none rfl

/-- C4: no run fails on account of the Research Stage — a research failure
degrades to an empty context with the degraded flag set, and every run
terminates in `Completed`, `Failed(analysis)` or `Failed(grading)`; the state
`Failed(research)` is unreachable. -/
theorem C4_research_failure_never_fails_run (inp : RunInput) :
    (runPipeline inp).status ≠ .failed .research ∧
    (inp.researchOutcome = none →
      (runPipeline inp).context = emptyContext inp.prompt ∧
      (runPipeline inp).research_degraded = true) ∧
    ((runPipeline inp).status = .completed ∨
      (runPipeline inp).status = .failed .analysis ∨
      (runPipeline inp).status = .failed .grading) := by
  obtain ⟨prompt, ro, ascript, gscript, scr⟩ := inp
  rcases ha : callWithRetry ascript with _ | rep
  · rcases ro with _ | c <;> simp [runPipeline, ha]
  · rcases hg : callWithRetry gscript with _ | g
    · rcases ro with _ | c <;> simp [runPipeline, ha, hg]
    · rcases ro with _ | c <;> simp [runPipeline, ha, hg]

/-- Witness for C4: a run whose Web Research Provider threw (no research
outcome) and whose Oracle never answers still terminates outside
`Failed(research)`, with the degraded empty context. -/
theorem C4_research_failure_never_fails_run_witness :
    (runPipeline ⟨"q", none, [], [], none⟩).status ≠ .failed .research ∧
    (runPipeline ⟨"q", none, [], [], none⟩).context = emptyContext "q" ∧
    (runPipeline ⟨"q", none, [], [], none⟩).research_degraded = true := by
  have h := C4_research_failure_never_fails_run ⟨"q", none, [], [], none⟩
  exact ⟨h.1, (h.2.1 rfl).1, (h.2.1 rfl).2⟩

/-- C5: every run yields a result object (`runPipeline` is total), and a
failed run still carries the outputs of the stages completed before the
failing stage unchanged: a `Failed(grading)` result carries the completed
`AnalysisReport`, and a successful research outcome is carried unchanged into
every result. -/
theorem C5_failed_run_keeps_earlier_stage_output (inp : RunInput) :
    (∃ res : AssessmentResult, runPipeline inp = res) ∧
    ((runPipeline inp).status = .failed .grading →
      ∃ rep : AnalysisReport, (runPipeline inp).analysis = some rep ∧
        callWithRetry inp.analysisScript = some rep) ∧
    (∀ c : ResearchContext, inp.researchOutcome = some c →
      (runPipeline inp).context = c) := by
  obtain ⟨prompt, ro, ascript, gscript, scr⟩ := inp
  refine ⟨⟨runPipeline _, rfl⟩, ?_, ?_⟩
  · intro hst
    rcases ha : callWithRetry ascript with _ | rep
    · rcases ro with _ | c <;> simp [runPipeline, ha] at hst
    · refine ⟨rep, ?_, rfl⟩
      rcases hg : callWithRetry gscript with _ | g
      · rcases ro with _ | c <;> simp [runPipeline, ha, hg]
      · rcases ro with _ | c <;> simp [runPipeline, ha, hg] at hst
  · rintro c rfl
    rcases ha : callWithRetry ascript with _ | rep <;>
      rcases hg : callWithRetry gscript with _ | g <;>
        simp [runPipeline, ha, hg]

/-- Witness for C5: a run that completes Analysis and then fails Grading
still carries the analysis report and the research context. -/
theorem C5_failed_run_keeps_earlier_stage_output_witness :
    (∃ res : AssessmentResult,
      runPipeline ⟨"q", some ⟨"q", []⟩, .valid ⟨[], [], [], 1⟩ :: [],
        .malformed :: .timeout :: [], none⟩ = res) ∧
    (∃ rep : AnalysisReport,
      (runPipeline ⟨"q", some ⟨"q", []⟩, .valid ⟨[], [], [], 1⟩ :: [],
        .malformed :: .timeout :: [], none⟩).analysis = some rep ∧
      callWithRetry (.valid (⟨[], [], [], 1⟩ : AnalysisReport) :: [])
        = some rep) ∧
    (runPipeline ⟨"q", some ⟨"q", []⟩, .valid ⟨[], [], [], 1⟩ :: [],
      .malformed :: .timeout :: [], none⟩).context = ⟨"q", []⟩ := by
  have h := C5_failed_run_keeps_earlier_stage_output
    ⟨"q", some ⟨"q", []⟩, .valid ⟨[], [], [], 1⟩ :: [],
      .malformed :: .timeout :: [], none⟩
  exact ⟨h.1, h.2.1 rfl, h.2.2 ⟨"q", []⟩ rfl⟩

end IDEA
